import Mathlib

/-!
Shallow embedding of the eBPF-NFS repository's interception engine:
the TC ingress handlers of the file-fetch (HTTP) variant
(src/fileserver.bpf.c) and of the remote-filesystem (NFS) variant
(nfs_server.bpf.c, shipped inside test_nfs_server.sh after the document
separator), together with the control-plane cache-refresh and
file-handle generation code (nfs_server.c / fileserver.c).

Frames are byte lists (each byte a Nat below 256); machine integers are
Nat with explicit wraparound where the C code can overflow; BPF maps are
functions into Option; the bounded ring buffer is modelled by a free-slot
counter: a reservation succeeds exactly when a slot is free.
-/

namespace EbpfNfs

/-- Truncation to 32 bits, used where the C sources compute on __u32. -/
def wrap32 (n : Nat) : Nat := n % 4294967296

/-- Constant 2^64. -/
def TWO64 : Nat := 18446744073709551616

/-- Unsigned 64-bit subtraction with wraparound, as computed on __u64
values (used by the TTL check in handle_nfs_getattr). -/
def sub64 (a b : Nat) : Nat := (a + TWO64 - b % TWO64) % TWO64

/-- Byte i of a frame (out-of-range reads never happen after the bounds
checks the code performs; the default 0 is unreachable there). -/
def byteAt (pkt : List Nat) (i : Nat) : Nat := pkt.getD i 0

/-- Big-endian 16-bit field at offset i, the value of an __be16 load. -/
def be16 (pkt : List Nat) (i : Nat) : Nat := byteAt pkt i * 256 + byteAt pkt (i + 1)

/-- Big-endian 32-bit field at offset i. -/
def be32 (pkt : List Nat) (i : Nat) : Nat :=
  byteAt pkt i * 16777216 + byteAt pkt (i + 1) * 65536 +
    byteAt pkt (i + 2) * 256 + byteAt pkt (i + 3)

/-- Byte values of a string of ASCII characters. -/
def strB (s : String) : List Nat := s.toList.map Char.toNat

/-- TC action: let the frame continue through the network stack. -/
def TC_ACT_OK : Nat := 0

/-- Pointwise update of a map modelled as a function into Option. -/
def upd {α β : Type} [DecidableEq α] (m : α → Option β) (k : α) (v : β) :
    α → Option β :=
  fun x => if x = k then some v else m x

/-- Atomic increment of one slot of a statistics array. -/
def bump (s : Nat → Nat) (i : Nat) : Nat → Nat :=
  fun j => if j = i then s j + 1 else s j

/-- Decision Engine outcome of one frame (spec section 4.5); Aborted
marks the early return taken when reserving the initial ring-buffer
record fails, where the code makes no decision at all. -/
inductive Outcome
  | PassThrough
  | KernelServed
  | Forward
  | NotFound
  | Aborted
deriving DecidableEq, Repr

/-! HTTP (file-fetch) variant: fileserver.bpf.c -/

/-- Enum http_method of fileserver.h. -/
def HTTP_GET : Nat := 1
def HTTP_POST : Nat := 2
def HTTP_PUT : Nat := 3
def HTTP_DELETE : Nat := 4
def HTTP_UNKNOWN : Nat := 0

/-- Enum file_op_result of fileserver.h (values used by the TC program). -/
def FILE_OP_SUCCESS : Nat := 0
def FILE_OP_NOT_FOUND : Nat := 1
def FILE_OP_FORWARD_TO_USER : Nat := 4

/-- Translation of parse_http_method: fixed-offset byte comparisons on
the transport payload, with the same bounds checks as the C code. -/
def parse_http_method (pl : List Nat) : Nat :=
  if pl.length < 3 then HTTP_UNKNOWN
  else if pl.take 3 = strB ("GET") then HTTP_GET
  else if 4 ≤ pl.length ∧ pl.take 4 = strB ("POST") then HTTP_POST
  else if pl.take 3 = strB ("PUT") then HTTP_PUT
  else if 6 ≤ pl.length ∧ pl.take 6 = strB ("DELETE") then HTTP_DELETE
  else HTTP_UNKNOWN

/-- Translation of extract_filename: requires the exact prefix "GET /",
then copies at most 8 bytes, stopping at space, question mark, CR or LF.
The C loop bounds i < 13, i < len and j < 8 move in lockstep with the
list operations below. -/
def extract_filename (pl : List Nat) : List Nat :=
  if pl.length < 5 then []
  else if pl.take 5 = strB ("GET /") then
    ((pl.drop 5).take 8).takeWhile (fun c => ¬(c = 32 ∨ c = 63 ∨ c = 13 ∨ c = 10))
  else []

/-- Translation of check_file_exists: the lightweight existence
heuristic accepts exactly the filenames starting with "ind", "sta" or
"tes". -/
def check_file_ex (fn : List Nat) : Bool :=
  fn.take 3 = strB ("ind") ∨ fn.take 3 = strB ("sta") ∨ fn.take 3 = strB ("tes")

/-- Struct file_cache_entry of fileserver.h (keyed by filename in the
file_cache map, so the filename field itself is the map key). -/
structure FileCacheEntry where
  file_size : Nat
  last_modified : Nat
  cached_data : List Nat
  cache_hits : Nat
  valid : Bool
deriving DecidableEq, Repr

/-- Recognized HTTP request, as extracted by the early part of
fileserver_ingress (client ip and port, method, raw extracted name). -/
structure HttpReq where
  saddr : Nat
  sport : Nat
  method : Nat
  rawName : List Nat
deriving DecidableEq, Repr

/-- Header walk of fileserver_ingress up to and including the TCP bounds
check: Ethernet (14 bytes, ethertype 0x0800), IPv4 (protocol TCP = 6,
header length from the ihl nibble), TCP header fully in bounds.
Returns the TCP header offset. -/
def httpTransportWalk (pkt : List Nat) : Option Nat :=
  if pkt.length < 14 then none
  else if ¬(byteAt pkt 12 = 8 ∧ byteAt pkt 13 = 0) then none
  else if pkt.length < 34 then none
  else if byteAt pkt 23 ≠ 6 then none
  else
    let tcpOff := 14 + (byteAt pkt 14 % 16) * 4
    if pkt.length < tcpOff + 20 then none
    else some tcpOff

/-- Destination port the file-fetch header walk reads, when the walk
reaches the transport header at all. -/
def httpDestPort (pkt : List Nat) : Option Nat :=
  (httpTransportWalk pkt).map (fun o => be16 pkt (o + 2))

/-- Recognition part of fileserver_ingress: all early pass-through
returns (bounds, ethertype, protocol, the two accepted ports 80 and
8080, payload presence, minimum length 4, known method). -/
def parseHttpRequest (pkt : List Nat) : Option HttpReq :=
  match httpTransportWalk pkt with
  | none => none
  | some tcpOff =>
    let dport := be16 pkt (tcpOff + 2)
    if dport ≠ 80 ∧ dport ≠ 8080 then none
    else
      let pOff := tcpOff + (byteAt pkt (tcpOff + 12) / 16) * 4
      if pkt.length ≤ pOff then none
      else
        let pl := pkt.drop pOff
        if pl.length < 4 then none
        else
          let m := parse_http_method pl
          if m = HTTP_UNKNOWN then none
          else some { saddr := be32 pkt 26, sport := be16 pkt tcpOff,
                      method := m, rawName := extract_filename pl }

/-- Shared state of the file-fetch engine: the stats array map, the
file_cache map, the conn_track map, and the free space of the events
ring buffer. -/
structure HState where
  stats : Nat → Nat
  file_cache : List Nat → Option FileCacheEntry
  conn_track : Nat → Option Nat
  ringFree : Nat

/-- Records the file-fetch engine submits to the events ring buffer. -/
inductive HEvent
  | request (src_addr sport method : Nat) (processed_in_kernel : Bool)
      (filename : List Nat)
  | fileEv (client_addr client_port op : Nat) (filename : List Nat)
      (file_size ts : Nat) (forwarded_to_user : Bool)
deriving DecidableEq, Repr

/-- Result of one fileserver_ingress invocation. -/
structure HResult where
  verdict : Nat
  state : HState
  events : List HEvent
  decision : Outcome

/-- Configuration constants set from user space. -/
structure Config where
  enable_kernel_processing : Bool
  cache_ttl_seconds : Nat

/-- Reservation of a file_event record: succeeds exactly when the ring
buffer has space; on failure the record is silently dropped. -/
def emitFile (st : HState) (ev : HEvent) : HState × List HEvent :=
  if st.ringFree = 0 then (st, [])
  else ({ st with ringFree := st.ringFree - 1 }, [ev])

/-- Common tail of fileserver_ingress: conn_track update, submission of
the http_request record (after any file_event), and the TC_ACT_OK
return. -/
def httpFinish (st : HState) (now : Nat) (r : HttpReq) (fn : List Nat)
    (evs : List HEvent) (processed : Bool) (d : Outcome) : HResult :=
  { verdict := TC_ACT_OK,
    state := { st with conn_track := upd st.conn_track r.saddr now },
    events := evs ++ [HEvent.request r.saddr r.sport r.method processed fn],
    decision := d }

/-- Decision part of fileserver_ingress, after a request was recognized:
total-request counter, request-record reservation (early return on
failure), then the kernel-processing branch. -/
def fileserver_process (cfg : Config) (st : HState) (now : Nat)
    (r : HttpReq) : HResult :=
  let fn := if r.rawName = [] then strB ("index.html") else r.rawName
  let st0 : HState := { st with stats := bump st.stats 0 }
  if st0.ringFree = 0 then
    { verdict := TC_ACT_OK, state := st0, events := [], decision := Outcome.Aborted }
  else
    let st1 : HState := { st0 with ringFree := st0.ringFree - 1 }
    if cfg.enable_kernel_processing = true ∧ r.method = HTTP_GET then
      if check_file_ex fn = true then
        match st1.file_cache fn with
        | some e =>
          if e.valid = true then
            let st2 : HState :=
              { st1 with
                file_cache := upd st1.file_cache fn { e with cache_hits := e.cache_hits + 1 },
                stats := bump st1.stats 1 }
            let pr := emitFile st2
              (HEvent.fileEv r.saddr r.sport FILE_OP_SUCCESS fn e.file_size now false)
            httpFinish pr.1 now r fn pr.2 true Outcome.KernelServed
          else
            let st2 : HState := { st1 with stats := bump st1.stats 2 }
            let pr := emitFile st2
              (HEvent.fileEv r.saddr r.sport FILE_OP_FORWARD_TO_USER fn 0 now true)
            httpFinish pr.1 now r fn pr.2 false Outcome.Forward
        | none =>
          let st2 : HState := { st1 with stats := bump st1.stats 2 }
          let pr := emitFile st2
            (HEvent.fileEv r.saddr r.sport FILE_OP_FORWARD_TO_USER fn 0 now true)
          httpFinish pr.1 now r fn pr.2 false Outcome.Forward
      else
        let pr := emitFile st1
          (HEvent.fileEv r.saddr r.sport FILE_OP_NOT_FOUND fn 0 now true)
        let st2 : HState := { pr.1 with stats := bump pr.1.stats 3 }
        httpFinish st2 now r fn pr.2 false Outcome.NotFound
    else
      let st2 : HState := { st1 with stats := bump st1.stats 2 }
      httpFinish st2 now r fn [] false Outcome.Forward

/-- Translation of fileserver_ingress: unrecognized frames pass through
with no state change and no event; recognized requests are processed. -/
def fileserver_ingress (cfg : Config) (st : HState) (now : Nat)
    (pkt : List Nat) : HResult :=
  match parseHttpRequest pkt with
  | none =>
    { verdict := TC_ACT_OK, state := st, events := [], decision := Outcome.PassThrough }
  | some r => fileserver_process cfg st now r

/-! NFS (remote-filesystem) variant: nfs_server.bpf.c -/

/-- Protocol constants of nfs_server.h. -/
def NFS_PORT : Nat := 2049
def RPC_PROGRAM_NFS : Nat := 100003
def NFS_VERSION_3 : Nat := 3
def RPC_CALL : Nat := 0
def MAX_NFS_DATA_SIZE : Nat := 8192
def NFSPROC3_NULL : Nat := 0
def NFSPROC3_GETATTR : Nat := 1
def NFSPROC3_READ : Nat := 6

/-- Enum nfs_op_result (values used by the TC program). -/
def NFS_OP_SUCCESS : Nat := 0
def NFS_OP_FORWARD_TO_USER : Nat := 10002

/-- Struct nfs_fh: an 8-byte handle is two 32-bit words (the remaining
bytes of the 64-byte buffer stay zero and are omitted). -/
structure NfsFh where
  len : Nat
  w0 : Nat
  w1 : Nat
deriving DecidableEq, Repr

/-- File handle of a freshly memset nfs_request event. -/
def zeroFh : NfsFh := { len := 0, w0 := 0, w1 := 0 }

/-- Struct nfs_fattr of nfs_server.h. -/
structure NfsFattr where
  type : Nat
  mode : Nat
  nlink : Nat
  uid : Nat
  gid : Nat
  size : Nat
  used : Nat
  fsid : Nat
  fileid : Nat
  atime_sec : Nat
  mtime_sec : Nat
  ctime_sec : Nat
deriving DecidableEq, Repr

/-- Struct nfs_file_cache_entry of nfs_server.h (keyed by filename in
the nfs_file_cache map). -/
structure NfsFileCacheEntry where
  filename : List Nat
  fh : NfsFh
  attr : NfsFattr
  data_size : Nat
  data : List Nat
  cache_time : Nat
  cache_hits : Nat
  valid : Bool
  data_valid : Bool
deriving DecidableEq, Repr

/-- Struct nfs_client_state of nfs_server.h. -/
structure NfsClientState where
  client_addr : Nat
  last_request_time : Nat
  request_count : Nat
  kernel_processed : Nat
  user_forwarded : Nat
deriving DecidableEq, Repr

/-- Struct rpc_header: the eight big-endian 32-bit fields. -/
structure RpcHeader where
  xid : Nat
  msg_type : Nat
  rpc_version : Nat
  program : Nat
  version : Nat
  procedure : Nat
  auth_flavor : Nat
  auth_len : Nat
deriving DecidableEq, Repr

/-- Translation of extract_be32: bounds-checked big-endian 32-bit read,
0 when the field does not fit. -/
def extract_be32 (pl : List Nat) (off : Nat) : Nat :=
  if off + 4 ≤ pl.length then be32 pl off else 0

/-- Translation of parse_rpc_header: fails when fewer than 32 payload
bytes are available, otherwise reads the eight fields. -/
def parse_rpc_header (pl : List Nat) : Option RpcHeader :=
  if pl.length < 32 then none
  else some
    { xid := extract_be32 pl 0, msg_type := extract_be32 pl 4,
      rpc_version := extract_be32 pl 8, program := extract_be32 pl 12,
      version := extract_be32 pl 16, procedure := extract_be32 pl 20,
      auth_flavor := extract_be32 pl 24, auth_len := extract_be32 pl 28 }

/-- Envelope validation of nfs_server_tc: call message, RPC version 2,
NFS program number, program version 3. -/
def rpcEnvelopeOk (rpc : RpcHeader) : Bool :=
  rpc.msg_type = RPC_CALL ∧ rpc.rpc_version = 2 ∧
    rpc.program = RPC_PROGRAM_NFS ∧ rpc.version = NFS_VERSION_3

/-- Header walk of nfs_server_tc: Ethernet, IPv4 with protocol UDP (17),
UDP header in bounds. Returns the UDP header offset. -/
def nfsTransportWalk (pkt : List Nat) : Option Nat :=
  if pkt.length < 14 then none
  else if ¬(byteAt pkt 12 = 8 ∧ byteAt pkt 13 = 0) then none
  else if pkt.length < 34 then none
  else if byteAt pkt 23 ≠ 17 then none
  else
    let udpOff := 14 + (byteAt pkt 14 % 16) * 4
    if pkt.length < udpOff + 8 then none
    else some udpOff

/-- Destination port the remote-filesystem header walk reads. -/
def nfsDestPort (pkt : List Nat) : Option Nat :=
  (nfsTransportWalk pkt).map (fun o => be16 pkt (o + 2))

/-- Recognized NFS request: source address and port plus the decoded
RPC envelope (the extractor decodes no per-operation arguments). -/
structure NfsReq where
  saddr : Nat
  sport : Nat
  rpc : RpcHeader
deriving DecidableEq, Repr

/-- Recognition part of nfs_server_tc: all early pass-through returns
(bounds, ethertype, protocol, port 2049, payload presence, 32-byte
minimum, RPC header decode, envelope validation). -/
def parseNfsRequest (pkt : List Nat) : Option NfsReq :=
  match nfsTransportWalk pkt with
  | none => none
  | some udpOff =>
    if be16 pkt (udpOff + 2) ≠ NFS_PORT then none
    else
      let pOff := udpOff + 8
      if pkt.length ≤ pOff then none
      else
        let pl := pkt.drop pOff
        if pl.length < 32 then none
        else
          match parse_rpc_header pl with
          | none => none
          | some rpc =>
            if rpcEnvelopeOk rpc = true then
              some { saddr := be32 pkt 26, sport := be16 pkt udpOff, rpc := rpc }
            else none

/-- Shared state of the remote-filesystem engine: nfs_stats,
nfs_file_cache, the fh_to_name side table, client_track, and the free
space of the nfs_events ring buffer. -/
structure NState where
  nfs_stats : Nat → Nat
  nfs_file_cache : List Nat → Option NfsFileCacheEntry
  fh_to_name : NfsFh → Option (List Nat)
  client_track : Nat → Option NfsClientState
  ringFree : Nat

/-- Struct nfs_request, the request record sent to user space. -/
structure NfsRequestEv where
  client_addr : Nat
  client_port : Nat
  xid : Nat
  procedure : Nat
  processed_in_kernel : Bool
  filename : List Nat
  offset : Nat
  count : Nat
  fh : NfsFh
deriving DecidableEq, Repr

/-- Struct nfs_event, the operation record sent to user space. -/
structure NfsEvent where
  client_addr : Nat
  client_port : Nat
  xid : Nat
  procedure : Nat
  result : Nat
  filename : List Nat
  file_size : Nat
  ts : Nat
  forwarded_to_user : Bool
  from_cache : Bool
deriving DecidableEq, Repr

/-- Records the remote-filesystem engine submits to nfs_events. -/
inductive NEvent
  | req (r : NfsRequestEv)
  | op (e : NfsEvent)
deriving DecidableEq, Repr

/-- Result of one nfs_server_tc invocation. -/
structure NResult where
  verdict : Nat
  state : NState
  events : List NEvent
  decision : Outcome

/-- Client-tracking step of nfs_server_tc: insert a fresh state on the
first request from an address, otherwise update last-seen time and
total count in place. -/
def client_touch (st : NState) (addr now : Nat) : NState :=
  match st.client_track addr with
  | none =>
    let ns : NfsClientState :=
      { client_addr := addr, last_request_time := now, request_count := 1,
        kernel_processed := 0, user_forwarded := 0 }
    { st with client_track := upd st.client_track addr ns }
  | some cs =>
    let ns : NfsClientState :=
      { cs with last_request_time := now, request_count := cs.request_count + 1 }
    { st with client_track := upd st.client_track addr ns }

/-- Late kernel-processed increment of nfs_server_tc. When the client
was inserted in this same invocation, the C code increments a stack
copy of the state (the local new_state), so the increment is lost; only
for a pre-existing client does it reach the map. -/
def clientBumpKernel (st : NState) (addr : Nat) (fresh : Bool) : NState :=
  if fresh = true then st
  else
    match st.client_track addr with
    | some cs =>
      let ns : NfsClientState := { cs with kernel_processed := cs.kernel_processed + 1 }
      { st with client_track := upd st.client_track addr ns }
    | none => st

/-- Late user-forwarded increment of nfs_server_tc, with the same
lost-update behavior for clients inserted in this invocation. -/
def clientBumpUser (st : NState) (addr : Nat) (fresh : Bool) : NState :=
  if fresh = true then st
  else
    match st.client_track addr with
    | some cs =>
      let ns : NfsClientState := { cs with user_forwarded := cs.user_forwarded + 1 }
      { st with client_track := upd st.client_track addr ns }
    | none => st

/-- Translation of handle_nfs_getattr: handle→name lookup, bounded
filename copy, validity check, TTL check (unsigned 64-bit subtraction),
then hit-counter increment and kernel-processed statistics. -/
def handle_nfs_getattr (ttl now : Nat) (st : NState) (rq : NfsRequestEv)
    (ev : NfsEvent) : Bool × NfsEvent × NState :=
  match st.fh_to_name rq.fh with
  | none =>
    (false, { ev with result := NFS_OP_FORWARD_TO_USER, forwarded_to_user := true }, st)
  | some nm =>
    let fn := nm.take 255
    let fwd : NfsEvent :=
      { ev with result := NFS_OP_FORWARD_TO_USER, forwarded_to_user := true,
                filename := fn }
    match st.nfs_file_cache fn with
    | none => (false, fwd, st)
    | some e =>
      if e.valid = false then (false, fwd, st)
      else if sub64 now e.cache_time > ttl * 1000000000 then (false, fwd, st)
      else
        let hit : NfsEvent :=
          { ev with result := NFS_OP_SUCCESS, forwarded_to_user := false,
                    from_cache := true, file_size := e.attr.size, filename := fn }
        let st2 : NState :=
          { st with
            nfs_file_cache := upd st.nfs_file_cache fn { e with cache_hits := e.cache_hits + 1 },
            nfs_stats := bump st.nfs_stats 1 }
        (true, hit, st2)

/-- Translation of handle_nfs_read: handle→name lookup, validity and
data-validity check, range check against the cached data (the C sum
offset + count is a 32-bit addition), then hit-counter increment. The
function performs no TTL check. -/
def handle_nfs_read (st : NState) (rq : NfsRequestEv) (ev : NfsEvent) :
    Bool × NfsEvent × NState :=
  match st.fh_to_name rq.fh with
  | none =>
    (false, { ev with result := NFS_OP_FORWARD_TO_USER, forwarded_to_user := true }, st)
  | some nm =>
    let fn := nm.take 255
    let fwd : NfsEvent :=
      { ev with result := NFS_OP_FORWARD_TO_USER, forwarded_to_user := true,
                filename := fn }
    match st.nfs_file_cache fn with
    | none => (false, fwd, st)
    | some e =>
      if e.valid = false ∨ e.data_valid = false then (false, fwd, st)
      else if rq.offset ≥ e.data_size ∨ rq.count > MAX_NFS_DATA_SIZE ∨
          wrap32 (rq.offset + rq.count) > e.data_size then (false, fwd, st)
      else
        let hit : NfsEvent :=
          { ev with result := NFS_OP_SUCCESS, forwarded_to_user := false,
                    from_cache := true, file_size := rq.count, filename := fn }
        let st2 : NState :=
          { st with
            nfs_file_cache := upd st.nfs_file_cache fn { e with cache_hits := e.cache_hits + 1 },
            nfs_stats := bump st.nfs_stats 1 }
        (true, hit, st2)

/-- Decision part of nfs_server_tc after envelope validation: client
tracking, the two ring-buffer reservations (early return on failure,
the second failure discarding the first reservation), the procedure
switch, final statistics and event submission. The request record
carries a zeroed file handle and zero offset and count because the
extractor decodes no per-operation arguments from the wire. -/
def nfs_process (cfg : Config) (st : NState) (now : Nat) (r : NfsReq) : NResult :=
  let fresh := (st.client_track r.saddr).isNone
  let st0 := client_touch st r.saddr now
  if st0.ringFree = 0 then
    { verdict := TC_ACT_OK, state := st0, events := [], decision := Outcome.Aborted }
  else
    let st1 : NState := { st0 with ringFree := st0.ringFree - 1 }
    if st1.ringFree = 0 then
      { verdict := TC_ACT_OK, state := { st1 with ringFree := st1.ringFree + 1 },
        events := [], decision := Outcome.Aborted }
    else
      let st2 : NState := { st1 with ringFree := st1.ringFree - 1 }
      let rq0 : NfsRequestEv :=
        { client_addr := r.saddr, client_port := r.sport, xid := r.rpc.xid,
          procedure := r.rpc.procedure, processed_in_kernel := false,
          filename := [], offset := 0, count := 0, fh := zeroFh }
      let ev0 : NfsEvent :=
        { client_addr := r.saddr, client_port := r.sport, xid := r.rpc.xid,
          procedure := r.rpc.procedure, result := NFS_OP_FORWARD_TO_USER,
          filename := [], file_size := 0, ts := now, forwarded_to_user := true,
          from_cache := false }
      let step : Bool × NfsEvent × NState :=
        if cfg.enable_kernel_processing = true then
          if r.rpc.procedure = NFSPROC3_NULL then
            let okEv : NfsEvent :=
              { ev0 with result := NFS_OP_SUCCESS, forwarded_to_user := false,
                         from_cache := false }
            (true, okEv, { st2 with nfs_stats := bump st2.nfs_stats 1 })
          else if r.rpc.procedure = NFSPROC3_GETATTR then
            handle_nfs_getattr cfg.cache_ttl_seconds now st2 rq0 ev0
          else if r.rpc.procedure = NFSPROC3_READ then
            handle_nfs_read st2 rq0 ev0
          else
            let fwdEv : NfsEvent :=
              { ev0 with result := NFS_OP_FORWARD_TO_USER, forwarded_to_user := true }
            (false, fwdEv, st2)
        else (false, ev0, st2)
      let st3 : NState := { step.2.2 with nfs_stats := bump step.2.2.nfs_stats 0 }
      if step.1 = true then
        { verdict := TC_ACT_OK,
          state := clientBumpKernel st3 r.saddr fresh,
          events := [NEvent.req { rq0 with processed_in_kernel := true },
                     NEvent.op step.2.1],
          decision := Outcome.KernelServed }
      else
        { verdict := TC_ACT_OK,
          state := clientBumpUser { st3 with nfs_stats := bump st3.nfs_stats 2 }
                     r.saddr fresh,
          events := [NEvent.req rq0, NEvent.op step.2.1],
          decision := Outcome.Forward }

/-- Translation of nfs_server_tc: unrecognized frames pass through with
no state change and no event; recognized requests are processed. -/
def nfs_server_tc (cfg : Config) (st : NState) (now : Nat)
    (pkt : List Nat) : NResult :=
  match parseNfsRequest pkt with
  | none =>
    { verdict := TC_ACT_OK, state := st, events := [], decision := Outcome.PassThrough }
  | some r => nfs_process cfg st now r

/-! Control plane: handle generation and cache refresh (nfs_server.c),
and the file-fetch cache refresh (fileserver.c). -/

/-- One step of the rolling hash hash = hash * 31 + c on a 32-bit
accumulator. -/
def hashStep (h c : Nat) : Nat := wrap32 (h * 31 + c)

/-- Hash computed by the BPF-side generate_file_handle: its loop breaks
once i reaches 3, so only the first four bytes of the (null-terminated,
interior-null-free) filename contribute. -/
def bpfFhHash (fn : List Nat) : Nat := (fn.take 4).foldl hashStep 0

/-- Hash computed by the user-space generate_nfs_file_handle: every
byte of the filename contributes. -/
def userFhHash (fn : List Nat) : Nat := fn.foldl hashStep 0

/-- Translation of the BPF-side generate_file_handle. -/
def generate_file_handle (fn : List Nat) : NfsFh :=
  { len := 8, w0 := bpfFhHash fn, w1 := bpfFhHash fn ^^^ 3735928559 }

/-- Translation of the user-space generate_nfs_file_handle. -/
def generate_nfs_file_handle (fn : List Nat) : NfsFh :=
  { len := 8, w0 := userFhHash fn, w1 := userFhHash fn ^^^ 3735928559 }

/-- Relevant results of the stat call cache_file_in_kernel performs. -/
structure FileStat where
  st_size : Nat
  is_reg : Bool
  is_dir : Bool
  st_mode : Nat
  st_nlink : Nat
  st_uid : Nat
  st_gid : Nat
  st_blocks : Nat
  st_ino : Nat
  st_atime : Nat
  st_mtime : Nat
  st_ctime : Nat
deriving Repr

/-- Cache entry the NFS control plane builds for a file it refreshes
(nfs_server.c, cache_file_in_kernel). -/
def buildNfsCacheEntry (stt : FileStat) (d : List Nat) (nowSec : Nat)
    (fn : List Nat) : NfsFileCacheEntry :=
  { filename := fn.take 255,
    fh := generate_nfs_file_handle fn,
    attr := { type := if stt.is_dir = true then 2 else 1, mode := stt.st_mode,
              nlink := stt.st_nlink, uid := stt.st_uid, gid := stt.st_gid,
              size := stt.st_size, used := stt.st_blocks * 512, fsid := 1,
              fileid := stt.st_ino, atime_sec := stt.st_atime,
              mtime_sec := stt.st_mtime, ctime_sec := stt.st_ctime },
    data_size := stt.st_size,
    data := d,
    cache_time := nowSec * 1000000000,
    cache_hits := 0,
    valid := true,
    data_valid := true }

/-- Translation of the NFS-variant cache_file_in_kernel. The external
stat and read calls are passed in as oracles; the function returns the
C return code together with the (possibly updated) nfs_file_cache and
fh_to_name maps, which in the C code are global BPF maps. A regular
file is installed only when its size is at most MAX_NFS_DATA_SIZE and
the read returned exactly st_size bytes. -/
def cache_file_in_kernel (enable : Bool) (statRes : Option FileStat)
    (readRes : Option (List Nat)) (nowSec : Nat) (fn : List Nat)
    (cache : List Nat → Option NfsFileCacheEntry)
    (fhm : NfsFh → Option (List Nat)) :
    Int × (List Nat → Option NfsFileCacheEntry) × (NfsFh → Option (List Nat)) :=
  if enable = false then (0, cache, fhm)
  else
    match statRes with
    | none => (-1, cache, fhm)
    | some stt =>
      if stt.is_reg = false then (-1, cache, fhm)
      else if stt.st_size > MAX_NFS_DATA_SIZE then (-1, cache, fhm)
      else
        match readRes with
        | none => (-1, cache, fhm)
        | some d =>
          if d.length ≠ stt.st_size then (-1, cache, fhm)
          else
            let e := buildNfsCacheEntry stt d nowSec fn
            (0, upd cache fn e, upd fhm e.fh fn)

/-- Translation of the file-fetch variant's cache_file_in_kernel
(fileserver.c): a regular file is installed only when its size is at
most MAX_PACKET_SIZE (1024 there); the installed entry is marked valid
with zero hits. -/
def http_cache_file_in_kernel (enable : Bool) (statRes : Option FileStat)
    (readRes : Option (List Nat)) (fn : List Nat)
    (cache : List Nat → Option FileCacheEntry) :
    Int × (List Nat → Option FileCacheEntry) :=
  if enable = false then (0, cache)
  else
    match statRes with
    | none => (-1, cache)
    | some stt =>
      if stt.is_reg = false ∨ stt.st_size > 1024 then (-1, cache)
      else
        match readRes with
        | none => (-1, cache)
        | some d =>
          if d.length ≠ stt.st_size then (-1, cache)
          else
            let e : FileCacheEntry :=
              { file_size := stt.st_size, last_modified := stt.st_mtime,
                cached_data := d, cache_hits := 0, valid := true }
            (0, upd cache fn e)

/-- Data-model invariant of section 3 for an NFS cache entry: cached
data implies validity, the cached length fits the inline buffer, and an
entry holding content describes a file no larger than the cacheable
maximum. -/
def EntryInv (e : NfsFileCacheEntry) : Prop :=
  (e.data_valid = true → e.valid = true) ∧
  e.data_size ≤ MAX_NFS_DATA_SIZE ∧
  e.data.length ≤ MAX_NFS_DATA_SIZE ∧
  (e.data_valid = true → e.attr.size ≤ MAX_NFS_DATA_SIZE)

/-- Data-model invariant for a file-fetch cache entry: the cached file
and its inline content fit the 1024-byte buffer (MAX_PACKET_SIZE of
fileserver.h). -/
def HEntryInv (e : FileCacheEntry) : Prop :=
  e.file_size ≤ 1024 ∧ e.cached_data.length ≤ 1024

/-! Concrete frames and states used to evaluate the model. -/

/-- Big-endian encoding of a 32-bit value as four bytes. -/
def be32L (n : Nat) : List Nat :=
  [n / 16777216 % 256, n / 65536 % 256, n / 256 % 256, n % 256]

/-- Ethernet header: zero MACs, ethertype 0x0800. -/
def ethH : List Nat := List.replicate 12 0 ++ [8, 0]

/-- Minimal IPv4 header: version 4, ihl 5, the given protocol, source
address 10.0.0.1, destination 10.0.0.2. -/
def ipH (proto : Nat) : List Nat :=
  [69, 0, 0, 0, 0, 0, 0, 0, 64, proto, 0, 0, 10, 0, 0, 1, 10, 0, 0, 2]

/-- TCP header with source port 40000, the given destination port, and
data offset 5. -/
def tcpH (dport : Nat) : List Nat :=
  [156, 64, dport / 256, dport % 256, 0, 0, 0, 0, 0, 0, 0, 0, 80, 0, 0, 0, 0, 0, 0, 0]

/-- UDP header with source port 40000 and the given destination port. -/
def udpH (dport : Nat) : List Nat :=
  [156, 64, dport / 256, dport % 256, 0, 40, 0, 0]

/-- RPC call payload with the given envelope fields and procedure. -/
def rpcPayload (xid msgType rpcVers prog vers proc : Nat) : List Nat :=
  be32L xid ++ be32L msgType ++ be32L rpcVers ++ be32L prog ++
    be32L vers ++ be32L proc ++ be32L 0 ++ be32L 0

/-- HTTP GET for /test.txt arriving on the given TCP port. -/
def pktGetTest (dport : Nat) : List Nat :=
  ethH ++ ipH 6 ++ tcpH dport ++ strB ("GET /test.txt HTTP/1.1")

/-- HTTP GET for /foo.html on port 80 (the existence heuristic rejects
the name "foo.html"). -/
def pktGetFoo : List Nat :=
  ethH ++ ipH 6 ++ tcpH 80 ++ strB ("GET /foo.html HTTP/1.1")

/-- NFS frame on UDP port 2049 carrying a call for the given procedure. -/
def pktNfs (proc : Nat) : List Nat :=
  ethH ++ ipH 17 ++ udpH 2049 ++ rpcPayload 305419896 0 2 100003 3 proc

/-- NFS frame whose RPC version field is 3 instead of 2. -/
def pktNfsBadVers : List Nat :=
  ethH ++ ipH 17 ++ udpH 2049 ++ rpcPayload 305419896 0 3 100003 3 1

/-- Configuration with kernel processing on and the default 300 s TTL. -/
def cfgOn : Config := { enable_kernel_processing := true, cache_ttl_seconds := 300 }

/-- Configuration with kernel processing off. -/
def cfgOff : Config := { enable_kernel_processing := false, cache_ttl_seconds := 300 }

/-- Valid file-fetch cache entry of size 512. -/
def entryTest : FileCacheEntry :=
  { file_size := 512, last_modified := 1000, cached_data := List.replicate 512 97,
    cache_hits := 0, valid := true }

/-- File-fetch engine state holding only entryTest under "test.txt". -/
def stHttpHit : HState :=
  { stats := fun _ => 0,
    file_cache := upd (fun _ => none) (strB ("test.txt")) entryTest,
    conn_track := fun _ => none,
    ringFree := 8 }

/-- File-fetch engine state holding a valid entry under "foo.html". -/
def stHttpFoo : HState :=
  { stats := fun _ => 0,
    file_cache := upd (fun _ => none) (strB ("foo.html")) entryTest,
    conn_track := fun _ => none,
    ringFree := 8 }

/-- Empty file-fetch engine state with the given ring-buffer space. -/
def stHttpEmpty (free : Nat) : HState :=
  { stats := fun _ => 0, file_cache := fun _ => none,
    conn_track := fun _ => none, ringFree := free }

/-- Valid NFS cache entry for a 40-byte file cached at time 1000 s. -/
def entryNfsTest : NfsFileCacheEntry :=
  { filename := strB ("test.txt"),
    fh := generate_nfs_file_handle (strB ("test.txt")),
    attr := { type := 1, mode := 420, nlink := 1, uid := 0, gid := 0, size := 40,
              used := 512, fsid := 1, fileid := 7, atime_sec := 1, mtime_sec := 2,
              ctime_sec := 3 },
    data_size := 40,
    data := List.replicate 40 98,
    cache_time := 1000000000000,
    cache_hits := 0,
    valid := true,
    data_valid := true }

/-- NFS engine state that maps the zero handle (the handle every
in-kernel request carries) to "test.txt" and caches entryNfsTest. -/
def stNfsHit : NState :=
  { nfs_stats := fun _ => 0,
    nfs_file_cache := upd (fun _ => none) (strB ("test.txt")) entryNfsTest,
    fh_to_name := upd (fun _ => none) zeroFh (strB ("test.txt")),
    client_track := fun _ => none,
    ringFree := 8 }

/-- Empty NFS engine state with the given ring-buffer space. -/
def stNfsEmpty (free : Nat) : NState :=
  { nfs_stats := fun _ => 0, nfs_file_cache := fun _ => none,
    fh_to_name := fun _ => none, client_track := fun _ => none, ringFree := free }

/-- Request event with the zero handle, as built by nfs_server_tc. -/
def rqZero : NfsRequestEv :=
  { client_addr := 167772161, client_port := 40000, xid := 305419896,
    procedure := 1, processed_in_kernel := false, filename := [],
    offset := 0, count := 0, fh := zeroFh }

/-- Neutral operation event, as initialized by nfs_server_tc. -/
def evZero : NfsEvent :=
  { client_addr := 167772161, client_port := 40000, xid := 305419896,
    procedure := 1, result := NFS_OP_FORWARD_TO_USER, filename := [],
    file_size := 0, ts := 0, forwarded_to_user := true, from_cache := false }

/-- RPC header carried by pktNfsBadVers. -/
def rpcBadVers : RpcHeader :=
  { xid := 305419896, msg_type := 0, rpc_version := 3, program := 100003,
    version := 3, procedure := 1, auth_flavor := 0, auth_len := 0 }

/-- Stat result used in the refresh examples: a 3-byte regular file. -/
def statEx : FileStat :=
  { st_size := 3, is_reg := true, is_dir := false, st_mode := 420, st_nlink := 1,
    st_uid := 0, st_gid := 0, st_blocks := 8, st_ino := 42, st_atime := 1,
    st_mtime := 2, st_ctime := 3 }

/-- Bytes the read oracle returns for statEx. -/
def dataEx : List Nat := [104, 105, 10]

/-- Request parsed from pktGetTest 80. -/
def reqGetTest : HttpReq :=
  { saddr := 167772161, sport := 40000, method := HTTP_GET,
    rawName := strB ("test.txt") }

/-- Request parsed from pktNfs 1 (a GETATTR call). -/
def reqNfsGetattr : NfsReq :=
  { saddr := 167772161, sport := 40000,
    rpc := { xid := 305419896, msg_type := 0, rpc_version := 2,
             program := 100003, version := 3, procedure := 1,
             auth_flavor := 0, auth_len := 0 } }

/-- Request carrying the handle the control plane generates for "t.txt". -/
def rqT : NfsRequestEv :=
  { rqZero with fh := generate_nfs_file_handle (strB ("t.txt")) }

/-! Helper lemmas. -/

@[simp] lemma bump_same (s : Nat → Nat) (i : Nat) : bump s i i = s i + 1 := by
  simp [bump]

@[simp] lemma bump_ne (s : Nat → Nat) (i j : Nat) (h : j ≠ i) : bump s i j = s j := by
  simp [bump, h]

@[simp] lemma upd_same {α β : Type} [DecidableEq α] (m : α → Option β) (k : α) (v : β) :
    upd m k v k = some v := by
  simp [upd]

@[simp] lemma upd_ne {α β : Type} [DecidableEq α] (m : α → Option β) (k : α) (v : β)
    (x : α) (h : x ≠ k) : upd m k v x = m x := by
  simp [upd, h]

@[simp] lemma client_touch_stats (st : NState) (a n : Nat) :
    (client_touch st a n).nfs_stats = st.nfs_stats := by
  unfold client_touch; split <;> rfl

@[simp] lemma client_touch_cache (st : NState) (a n : Nat) :
    (client_touch st a n).nfs_file_cache = st.nfs_file_cache := by
  unfold client_touch; split <;> rfl

@[simp] lemma client_touch_fh (st : NState) (a n : Nat) :
    (client_touch st a n).fh_to_name = st.fh_to_name := by
  unfold client_touch; split <;> rfl

@[simp] lemma client_touch_ring (st : NState) (a n : Nat) :
    (client_touch st a n).ringFree = st.ringFree := by
  unfold client_touch; split <;> rfl

@[simp] lemma clientBumpKernel_stats (st : NState) (a : Nat) (f : Bool) :
    (clientBumpKernel st a f).nfs_stats = st.nfs_stats := by
  unfold clientBumpKernel
  repeat' split
  all_goals rfl

@[simp] lemma clientBumpKernel_cache (st : NState) (a : Nat) (f : Bool) :
    (clientBumpKernel st a f).nfs_file_cache = st.nfs_file_cache := by
  unfold clientBumpKernel
  repeat' split
  all_goals rfl

@[simp] lemma clientBumpKernel_ring (st : NState) (a : Nat) (f : Bool) :
    (clientBumpKernel st a f).ringFree = st.ringFree := by
  unfold clientBumpKernel
  repeat' split
  all_goals rfl

@[simp] lemma clientBumpUser_stats (st : NState) (a : Nat) (f : Bool) :
    (clientBumpUser st a f).nfs_stats = st.nfs_stats := by
  unfold clientBumpUser
  repeat' split
  all_goals rfl

@[simp] lemma clientBumpUser_cache (st : NState) (a : Nat) (f : Bool) :
    (clientBumpUser st a f).nfs_file_cache = st.nfs_file_cache := by
  unfold clientBumpUser
  repeat' split
  all_goals rfl

@[simp] lemma clientBumpUser_ring (st : NState) (a : Nat) (f : Bool) :
    (clientBumpUser st a f).ringFree = st.ringFree := by
  unfold clientBumpUser
  repeat' split
  all_goals rfl

lemma fileserver_process_verdict (cfg : Config) (st : HState) (now : Nat)
    (r : HttpReq) : (fileserver_process cfg st now r).verdict = TC_ACT_OK := by
  simp only [fileserver_process, httpFinish, emitFile]
  repeat' split
  all_goals rfl

lemma fileserver_ingress_verdict (cfg : Config) (st : HState) (now : Nat)
    (pkt : List Nat) : (fileserver_ingress cfg st now pkt).verdict = TC_ACT_OK := by
  unfold fileserver_ingress
  split
  · rfl
  · exact fileserver_process_verdict cfg st now _

lemma nfs_process_verdict (cfg : Config) (st : NState) (now : Nat) (r : NfsReq) :
    (nfs_process cfg st now r).verdict = TC_ACT_OK := by
  simp only [nfs_process]
  repeat' split
  all_goals rfl

lemma nfs_server_tc_verdict (cfg : Config) (st : NState) (now : Nat)
    (pkt : List Nat) : (nfs_server_tc cfg st now pkt).verdict = TC_ACT_OK := by
  unfold nfs_server_tc
  split
  · rfl
  · exact nfs_process_verdict cfg st now _

lemma parseHttp_none_of_port (pkt : List Nat)
    (h80 : httpDestPort pkt ≠ some 80) (h8080 : httpDestPort pkt ≠ some 8080) :
    parseHttpRequest pkt = none := by
  unfold parseHttpRequest
  cases hw : httpTransportWalk pkt with
  | none => rfl
  | some tcpOff =>
    have hdp : httpDestPort pkt = some (be16 pkt (tcpOff + 2)) := by
      unfold httpDestPort
      rw [hw]
      rfl
    have hne80 : be16 pkt (tcpOff + 2) ≠ 80 := by
      intro hc
      exact h80 (by rw [hdp, hc])
    have hne8080 : be16 pkt (tcpOff + 2) ≠ 8080 := by
      intro hc
      exact h8080 (by rw [hdp, hc])
    simp [hne80, hne8080]

lemma parseNfs_none_of_port (pkt : List Nat)
    (h : nfsDestPort pkt ≠ some 2049) : parseNfsRequest pkt = none := by
  unfold parseNfsRequest
  cases hw : nfsTransportWalk pkt with
  | none => rfl
  | some udpOff =>
    have hdp : nfsDestPort pkt = some (be16 pkt (udpOff + 2)) := by
      unfold nfsDestPort
      rw [hw]
      rfl
    have hne : be16 pkt (udpOff + 2) ≠ 2049 := by
      intro hc
      exact h (by rw [hdp, hc])
    simp [hne, NFS_PORT]

lemma handle_nfs_read_hit (st : NState) (rq : NfsRequestEv) (ev : NfsEvent)
    (nm : List Nat) (e : NfsFileCacheEntry)
    (hfh : st.fh_to_name rq.fh = some nm)
    (hc : st.nfs_file_cache (nm.take 255) = some e)
    (hv : e.valid = true) (hdv : e.data_valid = true)
    (hoff : rq.offset < e.data_size)
    (hcnt : rq.count ≤ MAX_NFS_DATA_SIZE)
    (hrange : wrap32 (rq.offset + rq.count) ≤ e.data_size) :
    handle_nfs_read st rq ev =
      (true,
       { ev with result := NFS_OP_SUCCESS, forwarded_to_user := false,
                 from_cache := true, file_size := rq.count,
                 filename := nm.take 255 },
       { st with
         nfs_file_cache := upd st.nfs_file_cache (nm.take 255)
           { e with cache_hits := e.cache_hits + 1 },
         nfs_stats := bump st.nfs_stats 1 }) := by
  have h1 : ¬(e.valid = false ∨ e.data_valid = false) := by simp [hv, hdv]
  have h2 : ¬(rq.offset ≥ e.data_size ∨ rq.count > MAX_NFS_DATA_SIZE ∨
      wrap32 (rq.offset + rq.count) > e.data_size) := by
    push_neg
    exact ⟨hoff, hcnt, hrange⟩
  simp only [handle_nfs_read, hfh, hc, h1, h2]
  simp

lemma sub64_of_le (a b : Nat) (hba : b ≤ a) (ha : a < TWO64) :
    sub64 a b = a - b := by
  unfold sub64
  have hb : b % TWO64 = b := Nat.mod_eq_of_lt (lt_of_le_of_lt hba ha)
  rw [hb]
  have hsplit : a + TWO64 - b = (a - b) + TWO64 := by omega
  rw [hsplit, Nat.add_mod_right]
  exact Nat.mod_eq_of_lt (by omega)

lemma cache_file_in_kernel_cases (enable : Bool) (statRes : Option FileStat)
    (readRes : Option (List Nat)) (nowSec : Nat) (fn : List Nat)
    (cache : List Nat → Option NfsFileCacheEntry)
    (fhm : NfsFh → Option (List Nat)) :
    (cache_file_in_kernel enable statRes readRes nowSec fn cache fhm).2.1 = cache ∨
    (∃ stt d, statRes = some stt ∧ readRes = some d ∧
      stt.st_size ≤ MAX_NFS_DATA_SIZE ∧ d.length = stt.st_size ∧
      (cache_file_in_kernel enable statRes readRes nowSec fn cache fhm).2.1 =
        upd cache fn (buildNfsCacheEntry stt d nowSec fn)) := by
  unfold cache_file_in_kernel
  split
  · exact Or.inl rfl
  · split
    · exact Or.inl rfl
    · rename_i stt
      split
      · exact Or.inl rfl
      · split
        · exact Or.inl rfl
        · split
          · exact Or.inl rfl
          · rename_i d
            split
            · exact Or.inl rfl
            · rename_i hsize hread hlen
              refine Or.inr ⟨stt, d, rfl, rfl, Nat.le_of_not_lt hsize, ?_, rfl⟩
              by_contra hc
              exact hlen hc

lemma http_cache_file_in_kernel_cases (enable : Bool)
    (statRes : Option FileStat) (readRes : Option (List Nat)) (fn : List Nat)
    (cache : List Nat → Option FileCacheEntry) :
    (http_cache_file_in_kernel enable statRes readRes fn cache).2 = cache ∨
    (∃ stt d, statRes = some stt ∧ readRes = some d ∧
      stt.st_size ≤ 1024 ∧ d.length = stt.st_size ∧
      (http_cache_file_in_kernel enable statRes readRes fn cache).2 =
        upd cache fn
          { file_size := stt.st_size, last_modified := stt.st_mtime,
            cached_data := d, cache_hits := 0, valid := true }) := by
  unfold http_cache_file_in_kernel
  split
  · exact Or.inl rfl
  · split
    · exact Or.inl rfl
    · rename_i stt
      split
      · exact Or.inl rfl
      · split
        · exact Or.inl rfl
        · rename_i hcond hread d
          split
          · exact Or.inl rfl
          · rename_i hlen
            refine Or.inr ⟨stt, d, rfl, rfl, ?_, ?_, rfl⟩
            · rcases not_or.mp hcond with ⟨h1, h2⟩
              exact Nat.le_of_not_lt h2
            · by_contra hc
              exact hlen hc

lemma cache_file_in_kernel_install (stt : FileStat) (d : List Nat)
    (nowSec : Nat) (fn : List Nat)
    (cache : List Nat → Option NfsFileCacheEntry)
    (fhm : NfsFh → Option (List Nat))
    (hreg : stt.is_reg = true) (hsz : stt.st_size ≤ MAX_NFS_DATA_SIZE)
    (hdl : d.length = stt.st_size) :
    cache_file_in_kernel true (some stt) (some d) nowSec fn cache fhm =
      (0, upd cache fn (buildNfsCacheEntry stt d nowSec fn),
       upd fhm (buildNfsCacheEntry stt d nowSec fn).fh fn) := by
  have h1 : ¬(stt.st_size > MAX_NFS_DATA_SIZE) := by omega
  simp [cache_file_in_kernel, hreg, h1, hdl]

/-! Claims. -/

/-- C1: the specification states that a KernelServed cache hit is
answered by a response synthesized at the interception point and that
the frame is terminal. Evaluating both engines at cache-hit inputs
shows the decision is KernelServed while the returned verdict is
TC_ACT_OK, the pass-through action: the frame continues unmodified
through the normal network path to the application process, and no
response is synthesized anywhere in the handler. -/
theorem claimC1 :
    (fileserver_ingress cfgOn stHttpHit 7 (pktGetTest 80)).decision =
      Outcome.KernelServed ∧
    (fileserver_ingress cfgOn stHttpHit 7 (pktGetTest 80)).verdict = TC_ACT_OK ∧
    (nfs_server_tc cfgOn stNfsHit 1000000000001 (pktNfs 1)).decision =
      Outcome.KernelServed ∧
    (nfs_server_tc cfgOn stNfsHit 1000000000001 (pktNfs 1)).verdict = TC_ACT_OK := by
  refine ⟨by decide, by decide, by decide, by decide⟩

set_option maxRecDepth 40000 in
/-- C2 counterexample: the key "foo.html" holds a valid (and trivially
fresh, since file-fetch entries carry no timestamp) cache entry, yet
the decision for a GET of /foo.html is NotFound, not KernelServed, and
the entry's hit counter does not change: the existence heuristic
check_file_exists rejects every name not starting with "ind", "sta" or
"tes" before the cache is consulted. -/
theorem claimC2_counterexample :
    entryTest.valid = true ∧
    stHttpFoo.file_cache (strB ("foo.html")) = some entryTest ∧
    (fileserver_ingress cfgOn stHttpFoo 7 pktGetFoo).decision = Outcome.NotFound ∧
    (fileserver_ingress cfgOn stHttpFoo 7 pktGetFoo).state.file_cache
        (strB ("foo.html")) = some entryTest := by
  refine ⟨rfl, by decide, by decide, by decide⟩

/-- C2 (amended): the hit guarantee additionally requires, in the
file-fetch variant, that kernel processing is enabled, the method is
GET, and the existence heuristic accepts the filename; in the
remote-filesystem variant, that kernel processing is enabled and the
handle resolves through the side table (the engine always presents the
zeroed handle); and for reads that the offset is strictly below the
cached size and the count is at most MAX_NFS_DATA_SIZE. Under those
hypotheses the decision is KernelServed and the hit counter of the
entry increases by exactly 1. -/
theorem claimC2 :
    (∀ cfg st now pkt r e, parseHttpRequest pkt = some r →
      cfg.enable_kernel_processing = true → r.method = HTTP_GET →
      r.rawName ≠ [] → check_file_ex r.rawName = true →
      st.file_cache r.rawName = some e → e.valid = true → st.ringFree ≠ 0 →
      (fileserver_ingress cfg st now pkt).decision = Outcome.KernelServed ∧
      (fileserver_ingress cfg st now pkt).state.file_cache r.rawName =
        some { e with cache_hits := e.cache_hits + 1 }) ∧
    (∀ cfg st now pkt r nm e, parseNfsRequest pkt = some r →
      cfg.enable_kernel_processing = true → r.rpc.procedure = NFSPROC3_GETATTR →
      2 ≤ st.ringFree → st.fh_to_name zeroFh = some nm →
      st.nfs_file_cache (nm.take 255) = some e → e.valid = true →
      sub64 now e.cache_time ≤ cfg.cache_ttl_seconds * 1000000000 →
      (nfs_server_tc cfg st now pkt).decision = Outcome.KernelServed ∧
      (nfs_server_tc cfg st now pkt).state.nfs_file_cache (nm.take 255) =
        some { e with cache_hits := e.cache_hits + 1 }) ∧
    (∀ st rq ev nm e, st.fh_to_name rq.fh = some nm →
      st.nfs_file_cache (nm.take 255) = some e →
      e.valid = true → e.data_valid = true →
      rq.offset < e.data_size → rq.count ≤ MAX_NFS_DATA_SIZE →
      wrap32 (rq.offset + rq.count) ≤ e.data_size →
      (handle_nfs_read st rq ev).1 = true ∧
      (handle_nfs_read st rq ev).2.2.nfs_file_cache (nm.take 255) =
        some { e with cache_hits := e.cache_hits + 1 }) := by
  refine ⟨?_, ?_, ?_⟩
  · intro cfg st now pkt r e hp hen hm hraw hex hc hv hr
    simp only [fileserver_ingress, hp]
    simp [fileserver_process, httpFinish, emitFile, hr, hen, hm, hraw, hex,
      hc, hv]
    split <;> simp
  · intro cfg st now pkt r nm e hp hen hproc h2 hfh hc hv hfresh
    have h0 : st.ringFree ≠ 0 := by omega
    have h1 : st.ringFree - 1 ≠ 0 := by omega
    have hnt : ¬(sub64 now e.cache_time > cfg.cache_ttl_seconds * 1000000000) := by
      omega
    simp only [nfs_server_tc, hp]
    simp [nfs_process, handle_nfs_getattr, hen, hproc, NFSPROC3_GETATTR,
      NFSPROC3_NULL, NFSPROC3_READ, h0, h1, hfh, hc, hv, hnt]
  · intro st rq ev nm e hfh hc hv hdv hoff hcnt hrange
    rw [handle_nfs_read_hit st rq ev nm e hfh hc hv hdv hoff hcnt hrange]
    simp

set_option maxRecDepth 40000 in
/-- C2 witness: the amended hit guarantee evaluated at concrete inputs
in all three shapes (file-fetch pipeline, remote-filesystem pipeline
for an attribute fetch, and the read handler). -/
theorem claimC2_witness :
    ((fileserver_ingress cfgOn stHttpHit 7 (pktGetTest 80)).decision =
        Outcome.KernelServed ∧
      (fileserver_ingress cfgOn stHttpHit 7 (pktGetTest 80)).state.file_cache
          (strB ("test.txt")) =
        some { entryTest with cache_hits := entryTest.cache_hits + 1 }) ∧
    ((nfs_server_tc cfgOn stNfsHit 1000000000001 (pktNfs 1)).decision =
        Outcome.KernelServed ∧
      (nfs_server_tc cfgOn stNfsHit 1000000000001 (pktNfs 1)).state.nfs_file_cache
          ((strB ("test.txt")).take 255) =
        some { entryNfsTest with cache_hits := entryNfsTest.cache_hits + 1 }) ∧
    ((handle_nfs_read stNfsHit { rqZero with count := 10 } evZero).1 = true ∧
      (handle_nfs_read stNfsHit { rqZero with count := 10 } evZero).2.2.nfs_file_cache
          ((strB ("test.txt")).take 255) =
        some { entryNfsTest with cache_hits := entryNfsTest.cache_hits + 1 }) :=
  ⟨claimC2.1 cfgOn stHttpHit 7 (pktGetTest 80) reqGetTest entryTest (by decide)
     rfl rfl (by decide) (by decide) (by decide) rfl (by decide),
   claimC2.2.1 cfgOn stNfsHit 1000000000001 (pktNfs 1) reqNfsGetattr
     (strB ("test.txt")) entryNfsTest (by decide) rfl rfl (by decide) (by decide)
     (by decide) rfl (by decide),
   claimC2.2.2 stNfsHit { rqZero with count := 10 } evZero (strB ("test.txt"))
     entryNfsTest (by decide) (by decide) rfl rfl (by decide) (by decide)
     (by decide)⟩

set_option maxRecDepth 40000 in
/-- C3 counterexample: at a clock far beyond cache_timestamp + ttl, the
file-fetch cache hit and the remote-filesystem read are still decided
KernelServed (neither path checks the TTL); only the attribute fetch
flips to Forward. -/
theorem claimC3_counterexample :
    sub64 999999999999999999 entryNfsTest.cache_time >
      cfgOn.cache_ttl_seconds * 1000000000 ∧
    (fileserver_ingress cfgOn stHttpHit 999999999999999999 (pktGetTest 80)).decision =
      Outcome.KernelServed ∧
    (nfs_server_tc cfgOn stNfsHit 999999999999999999 (pktNfs 6)).decision =
      Outcome.KernelServed ∧
    (nfs_server_tc cfgOn stNfsHit 999999999999999999 (pktNfs 1)).decision =
      Outcome.Forward := by
  refine ⟨by decide, by decide, by decide, by decide⟩

/-- C3 (amended): TTL expiry governs only the remote-filesystem
attribute fetch: for an otherwise-eligible entry, a clock past
cache_timestamp + ttl makes handle_nfs_getattr forward and leave the
state unchanged; expiry is monotone in the clock (absent 64-bit
wraparound); and after the control plane refreshes the entry, an
attribute fetch for the new handle within the new TTL window is again
served in kernel. The file-fetch hit path and the read path perform no
TTL check at all. -/
theorem claimC3 :
    (∀ ttl now st rq ev nm e, st.fh_to_name rq.fh = some nm →
      st.nfs_file_cache (nm.take 255) = some e → e.valid = true →
      sub64 now e.cache_time > ttl * 1000000000 →
      (handle_nfs_getattr ttl now st rq ev).1 = false ∧
      (handle_nfs_getattr ttl now st rq ev).2.1.result = NFS_OP_FORWARD_TO_USER ∧
      (handle_nfs_getattr ttl now st rq ev).2.2 = st) ∧
    (∀ ct now now2 ttlNs, ct ≤ now → now ≤ now2 → now2 < TWO64 →
      ttlNs < sub64 now ct → ttlNs < sub64 now2 ct) ∧
    (∀ (st : NState) (stt : FileStat) (d : List Nat) (nowSec : Nat)
        (fn : List Nat) (rq : NfsRequestEv) (ev : NfsEvent) (ttl now2 : Nat),
      stt.is_reg = true → stt.st_size ≤ MAX_NFS_DATA_SIZE →
      d.length = stt.st_size → fn.length ≤ 255 →
      rq.fh = generate_nfs_file_handle fn →
      sub64 now2 (nowSec * 1000000000) ≤ ttl * 1000000000 →
      (handle_nfs_getattr ttl now2
        { st with
          nfs_file_cache := (cache_file_in_kernel true (some stt) (some d) nowSec
            fn st.nfs_file_cache st.fh_to_name).2.1,
          fh_to_name := (cache_file_in_kernel true (some stt) (some d) nowSec
            fn st.nfs_file_cache st.fh_to_name).2.2 }
        rq ev).1 = true) := by
  refine ⟨?_, ?_, ?_⟩
  · intro ttl now st rq ev nm e hfh hc hv hexp
    simp [handle_nfs_getattr, hfh, hc, hv, hexp]
  · intro ct now now2 ttlNs h1 h2 h3 h4
    rw [sub64_of_le now ct h1 (by omega)] at h4
    rw [sub64_of_le now2 ct (by omega) h3]
    omega
  · intro st stt d nowSec fn rq ev ttl now2 hreg hsz hdl hfn hrq hfr
    rw [cache_file_in_kernel_install stt d nowSec fn st.nfs_file_cache
      st.fh_to_name hreg hsz hdl]
    have htake : fn.take 255 = fn := List.take_of_length_le hfn
    have hnt : ¬(sub64 now2 (nowSec * 1000000000) > ttl * 1000000000) := by omega
    simp [handle_nfs_getattr, hrq, buildNfsCacheEntry, htake, hnt]

set_option maxRecDepth 40000 in
/-- C3 witness: the amended TTL behavior at concrete inputs: an expired
attribute fetch forwards and changes nothing, expiry is monotone at
concrete times, and a refreshed entry is served again. -/
theorem claimC3_witness :
    ((handle_nfs_getattr 300 999999999999999999 stNfsHit rqZero evZero).1 = false ∧
     (handle_nfs_getattr 300 999999999999999999 stNfsHit rqZero evZero).2.1.result =
       NFS_OP_FORWARD_TO_USER ∧
     (handle_nfs_getattr 300 999999999999999999 stNfsHit rqZero evZero).2.2 =
       stNfsHit) ∧
    (3 < sub64 10 0) ∧
    (handle_nfs_getattr 300 (100 * 1000000000 + 5)
      { stNfsEmpty 8 with
        nfs_file_cache := (cache_file_in_kernel true (some statEx) (some dataEx)
          100 (strB ("t.txt")) (stNfsEmpty 8).nfs_file_cache
          (stNfsEmpty 8).fh_to_name).2.1,
        fh_to_name := (cache_file_in_kernel true (some statEx) (some dataEx)
          100 (strB ("t.txt")) (stNfsEmpty 8).nfs_file_cache
          (stNfsEmpty 8).fh_to_name).2.2 }
      rqT evZero).1 = true :=
  ⟨claimC3.1 300 999999999999999999 stNfsHit rqZero evZero (strB ("test.txt"))
     entryNfsTest (by decide) (by decide) rfl (by decide),
   claimC3.2.1 0 5 10 3 (by omega) (by omega) (by decide) (by decide),
   claimC3.2.2 (stNfsEmpty 8) statEx dataEx 100 (strB ("t.txt")) rqT evZero 300
     (100 * 1000000000 + 5) rfl (by decide) (by decide) (by decide) rfl
     (by decide)⟩

/-- C4: a frame that the header walk or envelope validation rejects is
passed through with no state change and no event, in both variants;
and for the remote-filesystem variant, an RPC header whose message
type, RPC version, program number or program version is wrong makes
recognition fail. -/
theorem claimC4 :
    (∀ cfg st now pkt, parseHttpRequest pkt = none →
      fileserver_ingress cfg st now pkt =
        { verdict := TC_ACT_OK, state := st, events := [],
          decision := Outcome.PassThrough }) ∧
    (∀ cfg st now pkt, parseNfsRequest pkt = none →
      nfs_server_tc cfg st now pkt =
        { verdict := TC_ACT_OK, state := st, events := [],
          decision := Outcome.PassThrough }) ∧
    (∀ pkt udpOff rpc, nfsTransportWalk pkt = some udpOff →
      parse_rpc_header (pkt.drop (udpOff + 8)) = some rpc →
      rpcEnvelopeOk rpc = false → parseNfsRequest pkt = none) := by
  refine ⟨?_, ?_, ?_⟩
  · intro cfg st now pkt h
    simp only [fileserver_ingress, h]
  · intro cfg st now pkt h
    simp only [nfs_server_tc, h]
  · intro pkt udpOff rpc hw hr he
    simp only [parseNfsRequest, hw]
    split
    · rfl
    · split
      · rfl
      · split
        · rfl
        · simp only [hr, he]
          simp

/-- C4 witness: a frame to an unrecognized TCP port and a
remote-filesystem frame with RPC version 3 both pass through with the
state and event list untouched. -/
theorem claimC4_witness :
    fileserver_ingress cfgOn (stHttpEmpty 8) 5 (pktGetTest 9999) =
      { verdict := TC_ACT_OK, state := stHttpEmpty 8, events := [],
        decision := Outcome.PassThrough } ∧
    nfs_server_tc cfgOn (stNfsEmpty 8) 5 pktNfsBadVers =
      { verdict := TC_ACT_OK, state := stNfsEmpty 8, events := [],
        decision := Outcome.PassThrough } ∧
    parseNfsRequest pktNfsBadVers = none :=
  ⟨claimC4.1 cfgOn (stHttpEmpty 8) 5 (pktGetTest 9999) (by decide),
   claimC4.2.1 cfgOn (stNfsEmpty 8) 5 pktNfsBadVers
     (claimC4.2.2 pktNfsBadVers 34 rpcBadVers (by decide) (by decide) (by decide)),
   claimC4.2.2 pktNfsBadVers 34 rpcBadVers (by decide) (by decide) (by decide)⟩

/-- C5 counterexample: no single fixed destination port characterizes
the file-fetch variant: whichever single port is proposed, one of the
two concrete GET frames (to port 80 and to port 8080) goes to a
different port and is still processed rather than passed through. -/
theorem claimC5_counterexample :
    ¬ ∃ p : Nat, ∀ pkt cfg st now, httpDestPort pkt ≠ some p →
      (fileserver_ingress cfg st now pkt).decision = Outcome.PassThrough := by
  rintro ⟨p, hp⟩
  by_cases h80 : p = 80
  · have hne : httpDestPort (pktGetTest 8080) ≠ some p := by
      rw [show httpDestPort (pktGetTest 8080) = some 8080 from by decide]
      intro hc
      have : (8080 : Nat) = p := Option.some.inj hc
      omega
    have h := hp (pktGetTest 8080) cfgOn (stHttpEmpty 8) 5 hne
    rw [show (fileserver_ingress cfgOn (stHttpEmpty 8) 5 (pktGetTest 8080)).decision =
        Outcome.Forward from by decide] at h
    exact Outcome.noConfusion h
  · have hne : httpDestPort (pktGetTest 80) ≠ some p := by
      rw [show httpDestPort (pktGetTest 80) = some 80 from by decide]
      intro hc
      exact h80 (Option.some.inj hc).symm
    have h := hp (pktGetTest 80) cfgOn (stHttpEmpty 8) 5 hne
    rw [show (fileserver_ingress cfgOn (stHttpEmpty 8) 5 (pktGetTest 80)).decision =
        Outcome.Forward from by decide] at h
    exact Outcome.noConfusion h

/-- C5 (amended): the file-fetch variant recognizes exactly the two
destination ports 80 and 8080 and the remote-filesystem variant exactly
port 2049; a frame whose destination port is any other value (or whose
headers never reach the port check) is passed through unchanged with no
event. -/
theorem claimC5 :
    (∀ cfg st now pkt, httpDestPort pkt ≠ some 80 → httpDestPort pkt ≠ some 8080 →
      fileserver_ingress cfg st now pkt =
        { verdict := TC_ACT_OK, state := st, events := [],
          decision := Outcome.PassThrough }) ∧
    (∀ cfg st now pkt, nfsDestPort pkt ≠ some 2049 →
      nfs_server_tc cfg st now pkt =
        { verdict := TC_ACT_OK, state := st, events := [],
          decision := Outcome.PassThrough }) := by
  constructor
  · intro cfg st now pkt h80 h8080
    simp only [fileserver_ingress, parseHttp_none_of_port pkt h80 h8080]
  · intro cfg st now pkt h
    simp only [nfs_server_tc, parseNfs_none_of_port pkt h]

/-- C5 witness: frames to TCP port 9998 and UDP port 2050 pass through
unchanged in their respective variants. -/
theorem claimC5_witness :
    fileserver_ingress cfgOn (stHttpEmpty 8) 5 (pktGetTest 9998) =
      { verdict := TC_ACT_OK, state := stHttpEmpty 8, events := [],
        decision := Outcome.PassThrough } ∧
    nfs_server_tc cfgOn (stNfsEmpty 8) 5 (ethH ++ ipH 17 ++ udpH 2050 ++
        rpcPayload 305419896 0 2 100003 3 1) =
      { verdict := TC_ACT_OK, state := stNfsEmpty 8, events := [],
        decision := Outcome.PassThrough } :=
  ⟨claimC5.1 cfgOn (stHttpEmpty 8) 5 (pktGetTest 9998) (by decide) (by decide),
   claimC5.2 cfgOn (stNfsEmpty 8) 5 _ (by decide)⟩

/-- C6: with the kernel-processing switch off, every recognized
request resolves to ForwardToControlPlane in both variants, regardless
of the cache state (hypotheses only require the ring-buffer
reservations that precede the decision to succeed). -/
theorem claimC6 :
    (∀ cfg st now pkt r, parseHttpRequest pkt = some r →
      cfg.enable_kernel_processing = false → st.ringFree ≠ 0 →
      (fileserver_ingress cfg st now pkt).decision = Outcome.Forward) ∧
    (∀ cfg st now pkt r, parseNfsRequest pkt = some r →
      cfg.enable_kernel_processing = false → 2 ≤ st.ringFree →
      (nfs_server_tc cfg st now pkt).decision = Outcome.Forward) := by
  constructor
  · intro cfg st now pkt r hp hen hr
    simp only [fileserver_ingress, hp]
    simp only [fileserver_process, httpFinish, emitFile, hen, hr]
    simp
  · intro cfg st now pkt r hp hen hr
    have h1 : st.ringFree ≠ 0 := by omega
    have h2 : st.ringFree - 1 ≠ 0 := by omega
    simp only [nfs_server_tc, hp]
    simp only [nfs_process, hen, client_touch_ring, h1, h2]
    simp

set_option maxRecDepth 40000 in
/-- C6 witness: with kernel processing disabled, the cache-hit states
still yield Forward for a GET and for a GETATTR call. -/
theorem claimC6_witness :
    (fileserver_ingress cfgOff stHttpHit 5 (pktGetTest 80)).decision =
      Outcome.Forward ∧
    (nfs_server_tc cfgOff stNfsHit 5 (pktNfs 1)).decision = Outcome.Forward :=
  ⟨claimC6.1 cfgOff stHttpHit 5 (pktGetTest 80) reqGetTest (by decide) rfl
     (by decide),
   claimC6.2 cfgOff stNfsHit 5 (pktNfs 1) reqNfsGetattr (by decide) rfl
     (by decide)⟩

set_option maxRecDepth 40000 in
/-- C7 counterexample: with the ring buffer full, the file-fetch
engine aborts before deciding (outcome Aborted, forwarded counter
untouched); with one free slot the same frame is decided Forward and
the forwarded counter increments: the outcome and state updates are
not identical to the successful-reservation run. -/
theorem claimC7_counterexample :
    (fileserver_ingress cfgOn (stHttpEmpty 0) 7 (pktGetTest 80)).decision =
      Outcome.Aborted ∧
    (fileserver_ingress cfgOn (stHttpEmpty 1) 7 (pktGetTest 80)).decision =
      Outcome.Forward ∧
    (fileserver_ingress cfgOn (stHttpEmpty 0) 7 (pktGetTest 80)).state.stats 2 = 0 ∧
    (fileserver_ingress cfgOn (stHttpEmpty 1) 7 (pktGetTest 80)).state.stats 2 = 1 := by
  refine ⟨by decide, by decide, by decide, by decide⟩

/-- C7 (amended): a failed reservation never blocks or retries and the
verdict stays TC_ACT_OK, and a failed reservation for the secondary
file-operation record indeed leaves the decision, statistics, cache
and client tracking identical to the successful run (only the record
is lost); but a failed reservation for the initial request record
aborts the frame's processing: in the file-fetch variant only the
total-request counter has been updated, and in the remote-filesystem
variant only the client tracker has been touched. -/
theorem claimC7 :
    (∀ (cfg : Config) (st : HState) (now : Nat) (r : HttpReq),
      (fileserver_process cfg { st with ringFree := 1 } now r).decision =
        (fileserver_process cfg { st with ringFree := 2 } now r).decision ∧
      (fileserver_process cfg { st with ringFree := 1 } now r).state.stats =
        (fileserver_process cfg { st with ringFree := 2 } now r).state.stats ∧
      (fileserver_process cfg { st with ringFree := 1 } now r).state.file_cache =
        (fileserver_process cfg { st with ringFree := 2 } now r).state.file_cache ∧
      (fileserver_process cfg { st with ringFree := 1 } now r).state.conn_track =
        (fileserver_process cfg { st with ringFree := 2 } now r).state.conn_track) ∧
    (∀ (cfg : Config) (st : HState) (now : Nat) (r : HttpReq), st.ringFree = 0 →
      (fileserver_process cfg st now r).decision = Outcome.Aborted ∧
      (fileserver_process cfg st now r).verdict = TC_ACT_OK ∧
      (fileserver_process cfg st now r).events = [] ∧
      (fileserver_process cfg st now r).state.stats = bump st.stats 0 ∧
      (fileserver_process cfg st now r).state.file_cache = st.file_cache ∧
      (fileserver_process cfg st now r).state.conn_track = st.conn_track) ∧
    (∀ (cfg : Config) (st : NState) (now : Nat) (r : NfsReq), st.ringFree = 1 →
      (nfs_process cfg st now r).decision = Outcome.Aborted ∧
      (nfs_process cfg st now r).verdict = TC_ACT_OK ∧
      (nfs_process cfg st now r).events = [] ∧
      (nfs_process cfg st now r).state.nfs_stats = st.nfs_stats ∧
      (nfs_process cfg st now r).state.nfs_file_cache = st.nfs_file_cache ∧
      (nfs_process cfg st now r).state.client_track =
        (client_touch st r.saddr now).client_track ∧
      (nfs_process cfg st now r).state.ringFree = 1) := by
  refine ⟨?_, ?_, ?_⟩
  · intro cfg st now r
    simp only [fileserver_process, httpFinish, emitFile]
    repeat' split
    all_goals simp_all
  · intro cfg st now r hr
    simp [fileserver_process, hr]
  · intro cfg st now r hr
    simp [nfs_process, hr]

/-- C7 witness: the amended reservation behavior at concrete inputs:
the secondary-record drop leaves the decision unchanged, and a full
channel at the initial reservation aborts in both variants. -/
theorem claimC7_witness :
    (fileserver_process cfgOn { stHttpEmpty 5 with ringFree := 1 } 7
        reqGetTest).decision =
      (fileserver_process cfgOn { stHttpEmpty 5 with ringFree := 2 } 7
        reqGetTest).decision ∧
    (fileserver_process cfgOn (stHttpEmpty 0) 7 reqGetTest).decision =
      Outcome.Aborted ∧
    (nfs_process cfgOn (stNfsEmpty 1) 9 reqNfsGetattr).decision =
      Outcome.Aborted :=
  ⟨(claimC7.1 cfgOn (stHttpEmpty 5) 7 reqGetTest).1,
   (claimC7.2.1 cfgOn (stHttpEmpty 0) 7 reqGetTest rfl).1,
   (claimC7.2.2 cfgOn (stNfsEmpty 1) 9 reqNfsGetattr rfl).1⟩

/-- C8 counterexample: for the filename "test.txt" the engine-side
generator (which hashes only the first four bytes) and the
control-plane generator (which hashes the whole name) produce
different handles. -/
theorem claimC8_counterexample :
    generate_file_handle (strB ("test.txt")) ≠
      generate_nfs_file_handle (strB ("test.txt")) := by decide

/-- C8 (amended): both generators are deterministic functions of the
filename; the engine-side handle equals the control-plane handle of
the name truncated to its first four bytes, so the two agree exactly
when the filename is at most four bytes long. -/
theorem claimC8 :
    (∀ fn, generate_file_handle fn = generate_nfs_file_handle (fn.take 4)) ∧
    (∀ fn, fn.length ≤ 4 →
      generate_file_handle fn = generate_nfs_file_handle fn) := by
  constructor
  · intro fn
    rfl
  · intro fn h
    have ht : fn.take 4 = fn := List.take_of_length_le h
    calc generate_file_handle fn = generate_nfs_file_handle (fn.take 4) := rfl
      _ = generate_nfs_file_handle fn := by rw [ht]

/-- C8 witness: the generators agree on the 3-byte name "a.b". -/
theorem claimC8_witness :
    (strB ("a.b")).length ≤ 4 ∧
    generate_file_handle (strB ("a.b")) = generate_nfs_file_handle (strB ("a.b")) :=
  ⟨by decide, claimC8.2 (strB ("a.b")) (by decide)⟩

/-- C9: the control-plane refresh preserves the data-model invariant
in both variants: starting from a cache whose entries all satisfy the
invariant, every entry observable after cache_file_in_kernel still
does — data implies validity, the cached length and attribute size fit
the inline buffer (MAX_NFS_DATA_SIZE for the remote-filesystem
variant, MAX_PACKET_SIZE = 1024 for the file-fetch variant), and an
entry with content is installed only for files within that bound. -/
theorem claimC9 :
    (∀ enable statRes readRes nowSec fn cache fhm,
      (∀ k e, cache k = some e → EntryInv e) →
      ∀ k e,
        (cache_file_in_kernel enable statRes readRes nowSec fn cache fhm).2.1 k =
          some e →
        EntryInv e) ∧
    (∀ enable statRes readRes fn cache,
      (∀ k e, cache k = some e → HEntryInv e) →
      ∀ k e,
        (http_cache_file_in_kernel enable statRes readRes fn cache).2 k = some e →
        HEntryInv e) := by
  constructor
  · intro enable statRes readRes nowSec fn cache fhm hinv k e h
    rcases cache_file_in_kernel_cases enable statRes readRes nowSec fn cache fhm
      with hsame | ⟨stt, d, hst, hrd, hsz, hdl, hupd⟩
    · rw [hsame] at h
      exact hinv k e h
    · rw [hupd] at h
      by_cases hk : k = fn
      · subst hk
        rw [upd_same] at h
        have he : e = buildNfsCacheEntry stt d nowSec k := (Option.some.inj h).symm
        subst he
        refine ⟨fun _ => rfl, hsz, ?_, fun _ => hsz⟩
        simp only [buildNfsCacheEntry]
        rw [hdl]
        exact hsz
      · rw [upd_ne _ _ _ _ hk] at h
        exact hinv k e h
  · intro enable statRes readRes fn cache hinv k e h
    rcases http_cache_file_in_kernel_cases enable statRes readRes fn cache
      with hsame | ⟨stt, d, hst, hrd, hsz, hdl, hupd⟩
    · rw [hsame] at h
      exact hinv k e h
    · rw [hupd] at h
      by_cases hk : k = fn
      · subst hk
        rw [upd_same] at h
        have he : e = { file_size := stt.st_size, last_modified := stt.st_mtime,
                        cached_data := d, cache_hits := 0, valid := true } :=
          (Option.some.inj h).symm
        subst he
        exact ⟨hsz, by rw [hdl]; exact hsz⟩
      · rw [upd_ne _ _ _ _ hk] at h
        exact hinv k e h

/-- C9 witness: refreshing a 3-byte file into an empty cache installs
an entry that satisfies the invariant. -/
theorem claimC9_witness :
    (cache_file_in_kernel true (some statEx) (some dataEx) 100 (strB ("t.txt"))
        (fun _ => none) (fun _ => none)).2.1 (strB ("t.txt")) =
      some (buildNfsCacheEntry statEx dataEx 100 (strB ("t.txt"))) ∧
    EntryInv (buildNfsCacheEntry statEx dataEx 100 (strB ("t.txt"))) :=
  ⟨by decide,
   claimC9.1 true (some statEx) (some dataEx) 100 (strB ("t.txt"))
     (fun _ => none) (fun _ => none)
     (fun k e h => Option.noConfusion h)
     (strB ("t.txt")) (buildNfsCacheEntry statEx dataEx 100 (strB ("t.txt")))
     (by decide)⟩

/-- C10: both per-frame handlers are total and return the pass-through
verdict TC_ACT_OK on every input frame and state; the embedding carries
no frame mutation because no reachable branch of the source writes to
the frame. -/
theorem claimC10 :
    (∀ cfg st now pkt, (fileserver_ingress cfg st now pkt).verdict = TC_ACT_OK) ∧
    (∀ cfg st now pkt, (nfs_server_tc cfg st now pkt).verdict = TC_ACT_OK) :=
  ⟨fileserver_ingress_verdict, nfs_server_tc_verdict⟩

end EbpfNfs
